import Mathlib

/-!
Shallow embedding of `src/packages/web3-providers-http/src/index.ts`
(class `Web3ProvidersHttp`), a JSON-RPC-over-HTTP provider.

The TypeScript class is asynchronous: `request` suspends exactly once, at
`await this._httpClient.post(...)`.  We embed it as a task-queue small-step
semantics.  A call to `request` (or the internal chain-id probe started by
the constructor, `setWeb3Client`, or a successful `request` while
disconnected) runs synchronously up to the POST and enqueues an in-flight
task; the network later delivers a success body or a failure to the oldest
in-flight task, whose continuation then runs to completion in one step
(JavaScript drains all microtasks before the next network response is
processed, so this step granularity is exact for a FIFO network).
-/

namespace Web3ProvidersHttp

/-- JavaScript runtime values as far as this provider inspects them:
JSON-decodable data plus the distinguished `undefined`. -/
inductive JsValue where
| undefined : JsValue
| null : JsValue
| bool : Bool → JsValue
| num : Int → JsValue
| str : String → JsValue
| arr : List JsValue → JsValue
| obj : List (String × JsValue) → JsValue
deriving Repr

/-- JavaScript truthiness, used by `response.data.data ? _ : _` and
`args.params || []`. -/
def truthy : JsValue → Bool
| .undefined => false
| .null => false
| .bool b => b
| .num n => n != 0
| .str s => s != ""
| .arr _ => true
| .obj _ => true

/-- Property access `v[k]` as the source uses it (`response.data.data`,
`result.result`): throws a TypeError on `null`/`undefined`, yields the
field value on objects (or `undefined` when absent), and `undefined` on
the other primitives and arrays, which own none of the accessed keys. -/
def JsValue.propAccess : JsValue → String → Except String JsValue
| .null, k => .error ("Cannot read properties of null (reading " ++ k ++ ")")
| .undefined, k => .error ("Cannot read properties of undefined (reading " ++ k ++ ")")
| .obj fields, k =>
    .ok (match fields.lookup k with
         | some v => v
         | none => .undefined)
| _, _ => .ok .undefined

/-- JavaScript strict equality `===` at the comparison sites of the source
(`chainId !== this._clientChainId`, `this._clientChainId !== undefined`).
Primitives compare by value.  Arrays and objects compare by reference, and
the compared chain id is freshly allocated by each response parse, so
reference equality with a stored value is `false` for them. -/
def jsStrictEq : JsValue → JsValue → Bool
| .undefined, .undefined => true
| .null, .null => true
| .bool a, .bool b => a == b
| .num a, .num b => a == b
| .str a, .str b => a == b
| _, _ => false

/-- Line 188 of the source, the response unwrapping of `request`:
`response.data.data ? response.data.data : response.data` where
`response.data` is the HTTP response body. -/
def unwrapResponse (body : JsValue) : Except String JsValue :=
  match body.propAccess "data" with
  | .error e => .error e
  | .ok d => .ok (if truthy d then d else body)

/-- Test of `/^http(s)?:\/\//i` on a string: a case-insensitive
`http://` or `https://` prefix.  The prefix letters are ASCII, and without
the `u` flag the regex canonicalisation never lets a non-ASCII character
match an ASCII one, so ASCII lowercasing is exact. -/
def matchesHttpRegex (s : String) : Bool :=
  let t := s.toList.map Char.toLower
  t.take 7 == "http://".toList || t.take 8 == "https://".toList

/-- Lines 43-61, `_validateClientUrl` as a predicate: the check
`typeof web3Client === "string" && /^http(s)?:\/\//i.test(web3Client)`
(with a string literal where this comment shows double quotes). -/
def validateClientUrl : JsValue → Bool
| .str s => matchesHttpRegex s
| _ => false

/-- Error taxonomy: the typed error produced by the logger for an invalid
client URL, versus the plain `Error(...)` values thrown elsewhere. -/
inductive ErrorKind where
| invalidClientUrl : ErrorKind
| generic : ErrorKind
deriving Repr, DecidableEq

/-- An error value: its classification and its message. -/
structure Web3Error where
  kind : ErrorKind
  msg : String
deriving Repr, DecidableEq

/-- Message of the invalid-URL error, from line 54 of the source. -/
def invalidClientUrlMsg : String := "Provided web3Client is an invalid HTTP(S) URL"

/-- Modelled from the spec: `this._logger.makeError(...)` comes from the
external `web3-core-logger` package and `./errors` config, which are not
under `src/`; per spec section 7 it produces the typed `InvalidClientUrl`
error carrying the message of line 54. -/
def makeInvalidClientUrlError : Web3Error :=
  { kind := .invalidClientUrl, msg := invalidClientUrlMsg }

/-- The `params` field of `RequestArguments`: absent, an array, or a keyed
object (the surface the external TypeScript type admits). -/
inductive RequestParams where
| undefined : RequestParams
| array : List JsValue → RequestParams
| object : List (String × JsValue) → RequestParams
deriving Repr

/-- Lines 168-171 of `request`:
`args.params === undefined || Array.isArray(args.params) ? args.params || []
: Object.values(args.params)`.  An array is always truthy (`[] || x` keeps
`[]`), and `Object.values` lists the values in enumeration order. -/
def normalizeParams : RequestParams → List JsValue
| .undefined => []
| .array xs => xs
| .object fields => fields.map Prod.snd

/-- Arguments of `request`: RPC method, params, and extra RPC options
spread into the outbound body (`{...args.rpcOptions, method, params}`).
`rpcOptions = []` models an absent `rpcOptions` field. -/
structure RequestArguments where
  method : String
  params : RequestParams
  rpcOptions : List (String × JsValue) := []
deriving Repr

/-- JavaScript object-literal update: `{...fields, k: v}` keeps the slot of
an existing key `k` and overrides its value, or appends `k` at the end. -/
def setField : List (String × JsValue) → String → JsValue → List (String × JsValue)
| [], k, v => [(k, v)]
| (k', w) :: rest, k, v =>
    if k' = k then (k, v) :: rest else (k', w) :: setField rest k v

/-- Lines 174-178: the outbound POST body
`{...args.rpcOptions, method: args.method, params: arrayParams}`. -/
def buildRequestBody (args : RequestArguments) : JsValue :=
  .obj (setField (setField args.rpcOptions "method" (.str args.method))
          "params" (.arr (normalizeParams args.params)))

/-- Who awaits an in-flight POST: the internal chain-id probe
(`_connectToClient` → `_getChainId` → `request`) or an external caller of
`request`. -/
inductive TaskKind where
| probe : TaskKind
| user : TaskKind
deriving Repr, DecidableEq

/-- An in-flight POST: its awaiting continuation and the transmitted body. -/
structure PendingPost where
  kind : TaskKind
  body : JsValue
deriving Repr

/-- EIP-1193 events the provider emits, with their payloads:
Connect carries an object holding the chain id, Disconnect carries
an object holding a numeric code, ChainChanged carries the chain id. -/
inductive Event where
| connect : JsValue → Event
| disconnect : Int → Event
| chainChanged : JsValue → Event
deriving Repr

/-- The observable state of one `Web3ProvidersHttp` instance: its private
fields (`_httpClient` as the bound base URL, `_clientChainId`,
`_connected`), the public `web3Client`, the queue of in-flight POSTs, and
the log of emitted events. -/
structure ProviderState where
  httpClient : Option String
  web3Client : String
  clientChainId : JsValue
  connected : Bool
  pending : List PendingPost
  events : List Event
deriving Repr

/-- The POST issued by `_getChainId` (lines 110-113):
`this.request` with method `eth_chainId` and empty params. -/
def probeTask : PendingPost :=
  { kind := .probe,
    body := buildRequestBody { method := "eth_chainId", params := .array [] } }

/-- Lines 29-35, the constructor: validate the URL and bind the axios
client (`_createHttpClient`, which on failure rethrows the logger error
unchanged), store `web3Client`, and fire `_connectToClient`, whose
synchronous prefix issues the chain-id POST.  `_connected` starts `false`
and `_clientChainId` starts `undefined`. -/
def mkProvider (web3Client : JsValue) : Except Web3Error ProviderState :=
  if validateClientUrl web3Client then
    .ok { httpClient := some (match web3Client with | .str s => s | _ => ""),
          web3Client := (match web3Client with | .str s => s | _ => ""),
          clientChainId := .undefined,
          connected := false,
          pending := [probeTask],
          events := [] }
  else .error makeInvalidClientUrlError

/-- Lines 125-133, `setWeb3Client`: rebind the client and endpoint and fire
a new probe; on validation failure the assignments never run (the throw
happens while evaluating `_createHttpClient`) and the catch block throws a
plain `Error` prefixed with `Failed to set web3 client: `. -/
def setWeb3Client (s : ProviderState) (web3Client : JsValue) :
    ProviderState × Option Web3Error :=
  if validateClientUrl web3Client then
    ({ s with
        httpClient := some (match web3Client with | .str u => u | _ => ""),
        web3Client := (match web3Client with | .str u => u | _ => ""),
        pending := s.pending ++ [probeTask] }, none)
  else
    (s, some { kind := .generic,
               msg := "Failed to set web3 client: " ++ invalidClientUrlMsg })

/-- Lines 164-180, the synchronous prefix of `request`: fail with the
no-client error if `_httpClient` is unbound (before any network attempt),
otherwise normalize params, build the body, and issue the POST.  The
returned option is the synchronously thrown error message, if any. -/
def requestIssue (s : ProviderState) (args : RequestArguments) :
    ProviderState × Option String :=
  match s.httpClient with
  | none => (s, some "No HTTP client initiliazed")
  | some _ =>
      ({ s with pending := s.pending ++ [{ kind := .user, body := buildRequestBody args }] },
       none)

/-- Line 185 of `request`:
`if (this._connected === false) this._connectToClient();` — the fired
probe runs synchronously up to its own POST, enqueueing it.  The
`_connected` flag is read before the continuation of any enclosing probe
has set it. -/
def spawnIfDisconnected (s : ProviderState) : ProviderState :=
  if s.connected then s else { s with pending := s.pending ++ [probeTask] }

/-- Lines 190-194, the catch block of `request`: on a connection-refused
failure while connected, clear `_connected` and emit Disconnect with code
4900; every other failure leaves the state untouched. -/
def applyConnFailure (s : ProviderState) (code : Option String) : ProviderState :=
  if code = some "ECONNREFUSED" ∧ s.connected = true then
    { s with connected := false, events := s.events ++ [.disconnect 4900] }
  else s

/-- Lines 84-95, the continuation of `_connectToClient` once its
`request` has produced the chain id: emit Connect, set `_connected`, emit
ChainChanged when a stored chain id exists and differs, store the new id. -/
def finishProbe (s : ProviderState) (chainId : JsValue) : ProviderState :=
  let s1 : ProviderState :=
    { s with events := s.events ++ [.connect chainId], connected := true }
  let s2 : ProviderState :=
    if jsStrictEq s.clientChainId .undefined = false ∧ jsStrictEq chainId s.clientChainId = false
    then { s1 with events := s1.events ++ [.chainChanged chainId] }
    else s1
  { s2 with clientChainId := chainId }

/-- Delivery of a successful response body to an in-flight probe, with the
head task already dequeued: line 185 spawns a new probe first (the flag is
still unset), then line 188 unwraps the body — a throw there, or in
`result.result` of `_getChainId` (line 114), kills the probe silently (the
rethrows of lines 97-99 and 115-117 end as an unhandled rejection) — and
otherwise `_connectToClient` finishes. -/
def resolveProbeSuccess (s : ProviderState) (body : JsValue) : ProviderState :=
  let s1 := spawnIfDisconnected s
  match unwrapResponse body with
  | .error _ => s1
  | .ok r =>
      match r.propAccess "result" with
      | .error _ => s1
      | .ok chainId => finishProbe s1 chainId

/-- One network step: the environment resolves the oldest in-flight POST
with `o`, and the awaiting continuation runs to completion.  The second
component is what an external caller of `request` observes: the unwrapped
response, or the thrown `Error(error.message)` (line 197), which preserves
the message of the underlying failure. -/
def resolveHead (s : ProviderState) (o : Except (Option String × String) JsValue) :
    ProviderState × Option (Except String JsValue) :=
  match s.pending with
  | [] => (s, none)
  | t :: rest =>
      let s0 : ProviderState := { s with pending := rest }
      match t.kind, o with
      | .probe, .ok body => (resolveProbeSuccess s0 body, none)
      | .user, .ok body =>
          let s1 := spawnIfDisconnected s0
          match unwrapResponse body with
          | .error msg => (s1, some (.error msg))
          | .ok r => (s1, some (.ok r))
      | .probe, .error (code, _) => (applyConnFailure s0 code, none)
      | .user, .error (code, msg) => (applyConnFailure s0 code, some (.error msg))

/-- Field projection of a JavaScript object value (used to observe the
transmitted `params` entry of an outbound body). -/
def JsValue.getField : JsValue → String → Option JsValue
| .obj fields, k => fields.lookup k
| _, _ => none

/-- A well-formed chain-id response body whose result field is 0x1. -/
def goodBody : JsValue := .obj [("result", .str "0x1")]

/-- Sample request arguments for concrete scenarios. -/
def sampleArgs : RequestArguments :=
  { method := "eth_blockNumber", params := .array [.str "latest"] }

/-- The in-flight POST of a `request` call with `sampleArgs`. -/
def sampleUserTask : PendingPost :=
  { kind := .user, body := buildRequestBody sampleArgs }

/-- A connected provider with two external `request` POSTs in flight. -/
def sampleConnected : ProviderState :=
  { httpClient := some "http://localhost:8545",
    web3Client := "http://localhost:8545",
    clientChainId := .str "0x1",
    connected := true,
    pending := [sampleUserTask, sampleUserTask],
    events := [] }

/-- A disconnected provider whose chain-id probe is in flight. -/
def sampleDisconnected : ProviderState :=
  { sampleConnected with connected := false, pending := [probeTask] }

/-- A provider with no HTTP client handle bound. -/
def sampleNoClient : ProviderState :=
  { sampleConnected with httpClient := none, pending := [] }

/-- Observer: the delivered network outcome is a success. -/
def isSuccess : Except (Option String × String) JsValue → Bool
| .ok _ => true
| .error _ => false

/-- Observer: the delivered network outcome is a failure classified as
connection-refused (the error code equals ECONNREFUSED). -/
def isConnRefused : Except (Option String × String) JsValue → Bool
| .error (some c, _) => c == "ECONNREFUSED"
| _ => false

/-- Observer: the kind of the oldest in-flight POST, the one the next
network delivery resolves. -/
def headKind (s : ProviderState) : Option TaskKind :=
  s.pending.head?.map PendingPost.kind

/-! Helper lemmas about the step functions. -/

theorem spawnIfDisconnected_fields (s : ProviderState) :
    (spawnIfDisconnected s).web3Client = s.web3Client ∧
    (spawnIfDisconnected s).httpClient = s.httpClient ∧
    (spawnIfDisconnected s).connected = s.connected ∧
    (spawnIfDisconnected s).clientChainId = s.clientChainId ∧
    (spawnIfDisconnected s).events = s.events := by
  unfold spawnIfDisconnected
  split <;> simp

theorem applyConnFailure_fields (s : ProviderState) (code : Option String) :
    (applyConnFailure s code).web3Client = s.web3Client ∧
    (applyConnFailure s code).httpClient = s.httpClient ∧
    (applyConnFailure s code).clientChainId = s.clientChainId ∧
    (applyConnFailure s code).pending = s.pending := by
  unfold applyConnFailure
  split <;> simp

theorem applyConnFailure_of_neg (s : ProviderState) (code : Option String)
    (h : ¬(code = some "ECONNREFUSED" ∧ s.connected = true)) :
    applyConnFailure s code = s := by
  unfold applyConnFailure
  exact if_neg h

theorem applyConnFailure_of_pos (s : ProviderState)
    (h : s.connected = true) :
    applyConnFailure s (some "ECONNREFUSED") =
      { s with connected := false, events := s.events ++ [.disconnect 4900] } := by
  unfold applyConnFailure
  exact if_pos ⟨rfl, h⟩

theorem finishProbe_fields (s : ProviderState) (chainId : JsValue) :
    (finishProbe s chainId).web3Client = s.web3Client ∧
    (finishProbe s chainId).httpClient = s.httpClient ∧
    (finishProbe s chainId).pending = s.pending ∧
    (finishProbe s chainId).connected = true ∧
    (finishProbe s chainId).clientChainId = chainId := by
  unfold finishProbe
  split <;> simp

theorem finishProbe_events (s : ProviderState) (chainId : JsValue) :
    (finishProbe s chainId).events =
      s.events ++ [.connect chainId] ++
        (if jsStrictEq s.clientChainId .undefined = false ∧
            jsStrictEq chainId s.clientChainId = false
         then [.chainChanged chainId] else []) := by
  unfold finishProbe
  split <;> simp

theorem resolveProbeSuccess_fields (s : ProviderState) (body : JsValue) :
    (resolveProbeSuccess s body).web3Client = s.web3Client ∧
    (resolveProbeSuccess s body).httpClient = s.httpClient := by
  unfold resolveProbeSuccess
  split
  · exact ⟨(spawnIfDisconnected_fields s).1, (spawnIfDisconnected_fields s).2.1⟩
  · split
    · exact ⟨(spawnIfDisconnected_fields s).1, (spawnIfDisconnected_fields s).2.1⟩
    · refine ⟨?_, ?_⟩
      · rw [(finishProbe_fields _ _).1]
        exact (spawnIfDisconnected_fields s).1
      · rw [(finishProbe_fields _ _).2.1]
        exact (spawnIfDisconnected_fields s).2.1

theorem resolveProbeSuccess_connected (s : ProviderState) (body : JsValue)
    (h : s.connected = true) : (resolveProbeSuccess s body).connected = true := by
  unfold resolveProbeSuccess
  cases hu : unwrapResponse body with
  | error m =>
      simp only [hu]
      rw [(spawnIfDisconnected_fields s).2.2.1]
      exact h
  | ok r =>
      simp only [hu]
      cases hr : r.propAccess "result" with
      | error m =>
          simp only [hr]
          rw [(spawnIfDisconnected_fields s).2.2.1]
          exact h
      | ok cid =>
          simp only [hr]
          exact (finishProbe_fields _ _).2.2.2.1

theorem lookup_setField (fields : List (String × JsValue)) (k : String) (v : JsValue) :
    (setField fields k v).lookup k = some v := by
  induction fields with
  | nil => simp [setField]
  | cons p rest ih =>
      obtain ⟨k', w⟩ := p
      by_cases h : k' = k
      · subst h
        simp [setField]
      · have hb : (k == k') = false := beq_eq_false_iff_ne.mpr (Ne.symm h)
        simp [setField, h, List.lookup, hb, ih]

/-- C3, counterexample.  The claim states that whenever the raw response
body has a nested `data` field, `request` returns that nested field.  At
the concrete body with the field `data: false`, the truthiness test of
line 188 fails, so `request` returns the raw body, which differs from the
nested field value. -/
theorem unwrap_falsy_data_counterexample :
    (resolveHead sampleConnected (.ok (.obj [("data", .bool false)]))).2 =
      some (.ok (.obj [("data", .bool false)])) ∧
    JsValue.obj [("data", .bool false)] ≠ .bool false :=
  ⟨rfl, fun h => JsValue.noConfusion h⟩

/-- C3, amended.  For every successful `request`, if the raw response body
has a nested `data` field with a truthy value then that field is returned;
if the `data` field is absent or falsy, the raw body is returned
unchanged; what the unwrapping produces is exactly what the external
caller of `request` receives; and the two scenarios of the claim hold as
stated. -/
theorem unwrap_truthy_data_amended :
    (∀ fields v, fields.lookup "data" = some v → truthy v = true →
       unwrapResponse (.obj fields) = .ok v) ∧
    (∀ fields v, fields.lookup "data" = some v → truthy v = false →
       unwrapResponse (.obj fields) = .ok (.obj fields)) ∧
    (∀ fields, fields.lookup "data" = none →
       unwrapResponse (.obj fields) = .ok (.obj fields)) ∧
    (∀ s t rest body v, s.pending = t :: rest → t.kind = .user →
       unwrapResponse body = .ok v →
       (resolveHead s (.ok body)).2 = some (.ok v)) ∧
    unwrapResponse (.obj [("data", .obj [("result", .str "0x1")])]) =
      .ok (.obj [("result", .str "0x1")]) ∧
    unwrapResponse (.obj [("result", .str "0x1")]) =
      .ok (.obj [("result", .str "0x1")]) := by
  refine ⟨?_, ?_, ?_, ?_, rfl, rfl⟩
  · intro fields v h ht
    simp [unwrapResponse, JsValue.propAccess, h, ht]
  · intro fields v h ht
    simp [unwrapResponse, JsValue.propAccess, h, ht]
  · intro fields h
    simp [unwrapResponse, JsValue.propAccess, h, truthy]
  · intro s t rest body v hp hk hu
    obtain ⟨kind, tbody⟩ := t
    cases hk
    simp [resolveHead, hp, hu]

/-- C3 witness for the amended theorem: its hypotheses are satisfied at
concrete inputs. -/
theorem unwrap_truthy_data_amended_witness :
    unwrapResponse (.obj [("data", .str "0xff")]) = .ok (.str "0xff") ∧
    unwrapResponse (.obj [("data", .null)]) = .ok (.obj [("data", .null)]) ∧
    unwrapResponse (.obj [("result", .str "0x2")]) = .ok (.obj [("result", .str "0x2")]) ∧
    (resolveHead sampleConnected (.ok goodBody)).2 = some (.ok goodBody) :=
  ⟨unwrap_truthy_data_amended.1 [("data", .str "0xff")] (.str "0xff") rfl rfl,
   unwrap_truthy_data_amended.2.1 [("data", .null)] .null rfl rfl,
   unwrap_truthy_data_amended.2.2.1 [("result", .str "0x2")] rfl,
   unwrap_truthy_data_amended.2.2.2.1 sampleConnected sampleUserTask [sampleUserTask]
     goodBody goodBody rfl rfl rfl⟩

/-- C4: `args.params` is normalized before transmission: `undefined`
becomes the empty array, an array of length N passes through identical in
order and content, a keyed object becomes the array of its values in
enumeration order (so `a: 1, b: 2` becomes `[1, 2]`), and the body of the
POST put in flight by `request` carries exactly the normalized array as
its `params` entry. -/
theorem params_normalization :
    normalizeParams .undefined = [] ∧
    (∀ xs, normalizeParams (.array xs) = xs) ∧
    (∀ fields, normalizeParams (.object fields) = fields.map Prod.snd) ∧
    normalizeParams (.object [("a", .num 1), ("b", .num 2)]) = [.num 1, .num 2] ∧
    (∀ args, (buildRequestBody args).getField "params" =
       some (.arr (normalizeParams args.params))) ∧
    (∀ s args c, s.httpClient = some c →
       (requestIssue s args).1.pending =
         s.pending ++ [{ kind := .user, body := buildRequestBody args }]) := by
  refine ⟨rfl, fun xs => rfl, fun fields => rfl, rfl, ?_, ?_⟩
  · intro args
    simp [buildRequestBody, JsValue.getField, lookup_setField]
  · intro s args c h
    simp [requestIssue, h]

/-- C4 witness: the transmission clause instantiated at a provider with a
bound client and at sample arguments. -/
theorem params_normalization_witness :
    (buildRequestBody sampleArgs).getField "params" =
      some (.arr (normalizeParams sampleArgs.params)) ∧
    (requestIssue sampleConnected sampleArgs).1.pending =
      sampleConnected.pending ++ [{ kind := .user, body := buildRequestBody sampleArgs }] :=
  ⟨params_normalization.2.2.2.2.1 sampleArgs,
   params_normalization.2.2.2.2.2 sampleConnected sampleArgs "http://localhost:8545" rfl⟩

/-- C5, counterexample.  The claim states that `setClient` fails with
`InvalidClientUrl`.  At the concrete invalid endpoint `ftp://invalid`, the
catch block of `setWeb3Client` (line 131) instead throws a plain wrapping
error, whose classification is not `InvalidClientUrl`. -/
theorem set_client_error_kind_counterexample :
    (setWeb3Client sampleConnected (.str "ftp://invalid")).2 =
      some { kind := .generic,
             msg := "Failed to set web3 client: Provided web3Client is an invalid HTTP(S) URL" } ∧
    ErrorKind.generic ≠ ErrorKind.invalidClientUrl :=
  ⟨rfl, by decide⟩

/-- C5, amended.  For every value failing the scheme/type check (every
string without a case-insensitive `http://` or `https://` prefix, and
every non-string), construction fails with the typed `InvalidClientUrl`
error, while `setClient` fails with a generic error wrapping the
`InvalidClientUrl` message; in both cases no HTTP client handle is bound
or rebound and the stored endpoint is not replaced. -/
theorem invalid_url_rejection_amended :
    (∀ str, validateClientUrl (.str str) = matchesHttpRegex str) ∧
    validateClientUrl .undefined = false ∧
    validateClientUrl .null = false ∧
    (∀ b, validateClientUrl (.bool b) = false) ∧
    (∀ n, validateClientUrl (.num n) = false) ∧
    (∀ xs, validateClientUrl (.arr xs) = false) ∧
    (∀ fields, validateClientUrl (.obj fields) = false) ∧
    (∀ v, validateClientUrl v = false →
       mkProvider v = .error makeInvalidClientUrlError ∧
       makeInvalidClientUrlError.kind = .invalidClientUrl ∧
       (∀ s, setWeb3Client s v =
          (s, some { kind := .generic,
                     msg := "Failed to set web3 client: " ++ invalidClientUrlMsg }))) := by
  refine ⟨fun str => rfl, rfl, rfl, fun b => rfl, fun n => rfl, fun xs => rfl,
    fun fields => rfl, ?_⟩
  intro v h
  refine ⟨?_, rfl, ?_⟩
  · simp [mkProvider, h]
  · intro s
    simp [setWeb3Client, h]

/-- C5 witness: the rejection clause instantiated at the concrete invalid
inputs `ftp://x` (wrong scheme) and a numeric non-string. -/
theorem invalid_url_rejection_amended_witness :
    mkProvider (.str "ftp://x") = .error makeInvalidClientUrlError ∧
    setWeb3Client sampleConnected (.str "ftp://x") =
      (sampleConnected,
       some { kind := .generic,
              msg := "Failed to set web3 client: " ++ invalidClientUrlMsg }) ∧
    mkProvider (.num 42) = .error makeInvalidClientUrlError :=
  ⟨(invalid_url_rejection_amended.2.2.2.2.2.2.2 (.str "ftp://x") rfl).1,
   (invalid_url_rejection_amended.2.2.2.2.2.2.2 (.str "ftp://x") rfl).2.2 sampleConnected,
   (invalid_url_rejection_amended.2.2.2.2.2.2.2 (.num 42) rfl).1⟩

/-- C9: every call to `request`, succeeding or failing, leaves the stored
endpoint string `web3Client` and the bound HTTP client handle unchanged;
the issue step moreover touches neither the connected flag nor the stored
chain identity, and the resolution step only ever changes those two (plus
the in-flight queue and the event log). -/
theorem request_frame_conditions :
    ∀ s args o,
      ((requestIssue s args).1.web3Client = s.web3Client ∧
       (requestIssue s args).1.httpClient = s.httpClient ∧
       (requestIssue s args).1.connected = s.connected ∧
       (requestIssue s args).1.clientChainId = s.clientChainId) ∧
      ((resolveHead s o).1.web3Client = s.web3Client ∧
       (resolveHead s o).1.httpClient = s.httpClient) := by
  intro s args o
  constructor
  · cases h : s.httpClient <;> simp [requestIssue, h]
  · match hp : s.pending with
    | [] => simp [resolveHead, hp]
    | t :: rest =>
        obtain ⟨kind, tbody⟩ := t
        cases kind with
        | probe =>
            cases o with
            | error cm =>
                obtain ⟨code, msg⟩ := cm
                simp only [resolveHead, hp]
                exact ⟨(applyConnFailure_fields _ _).1, (applyConnFailure_fields _ _).2.1⟩
            | ok body =>
                simp only [resolveHead, hp]
                exact ⟨(resolveProbeSuccess_fields _ _).1, (resolveProbeSuccess_fields _ _).2⟩
        | user =>
            cases o with
            | error cm =>
                obtain ⟨code, msg⟩ := cm
                simp only [resolveHead, hp]
                exact ⟨(applyConnFailure_fields _ _).1, (applyConnFailure_fields _ _).2.1⟩
            | ok body =>
                simp only [resolveHead, hp]
                cases hu : unwrapResponse body with
                | error m =>
                    simp only [hu]
                    exact ⟨(spawnIfDisconnected_fields _).1, (spawnIfDisconnected_fields _).2.1⟩
                | ok r =>
                    simp only [hu]
                    exact ⟨(spawnIfDisconnected_fields _).1, (spawnIfDisconnected_fields _).2.1⟩

/-- C10: a `request` failure that is not a connection refusal observed
while connected (any other transport error, or a refusal while already
disconnected) preserves the connected flag, the stored chain identity, the
endpoint, the client handle, and emits no event. -/
theorem non_refused_failure_preserves_state :
    ∀ s code msg, ¬(code = some "ECONNREFUSED" ∧ s.connected = true) →
      (resolveHead s (.error (code, msg))).1.connected = s.connected ∧
      (resolveHead s (.error (code, msg))).1.clientChainId = s.clientChainId ∧
      (resolveHead s (.error (code, msg))).1.web3Client = s.web3Client ∧
      (resolveHead s (.error (code, msg))).1.httpClient = s.httpClient ∧
      (resolveHead s (.error (code, msg))).1.events = s.events := by
  intro s code msg h
  match hp : s.pending with
  | [] => simp [resolveHead, hp]
  | t :: rest =>
      obtain ⟨kind, tbody⟩ := t
      have h' : ¬(code = some "ECONNREFUSED" ∧
          (ProviderState.mk s.httpClient s.web3Client s.clientChainId s.connected rest s.events).connected = true) := h
      cases kind <;>
        simp [resolveHead, hp, applyConnFailure_of_neg _ _ h']

/-- C10 witness: a timeout-style failure at a connected provider, and a
refused failure at a disconnected provider, both leave every observable
field as it was. -/
theorem non_refused_failure_preserves_state_witness :
    ((resolveHead sampleConnected (.error (some "ETIMEDOUT", "timeout"))).1.connected =
       sampleConnected.connected ∧
     (resolveHead sampleConnected (.error (some "ETIMEDOUT", "timeout"))).1.events =
       sampleConnected.events) ∧
    ((resolveHead sampleDisconnected (.error (some "ECONNREFUSED", "refused"))).1.connected =
       sampleDisconnected.connected ∧
     (resolveHead sampleDisconnected (.error (some "ECONNREFUSED", "refused"))).1.events =
       sampleDisconnected.events) :=
  ⟨⟨(non_refused_failure_preserves_state sampleConnected (some "ETIMEDOUT") "timeout"
       (by simp)).1,
    (non_refused_failure_preserves_state sampleConnected (some "ETIMEDOUT") "timeout"
       (by simp)).2.2.2.2⟩,
   ⟨(non_refused_failure_preserves_state sampleDisconnected (some "ECONNREFUSED") "refused"
       (by simp [sampleDisconnected, sampleConnected])).1,
    (non_refused_failure_preserves_state sampleDisconnected (some "ECONNREFUSED") "refused"
       (by simp [sampleDisconnected, sampleConnected])).2.2.2.2⟩⟩

/-- C1: the connected flag starts `false` at construction, is preserved by
`setWeb3Client` and by the issue step of `request`, flips to `true` only
when a network delivery resolves an in-flight chain-id probe successfully
(the `_connectToClient` path), and flips to `false` only when a request
fails with the connection-refused classification while it was previously
`true`; no operation of the provider offers any other path, and no caller
can set the private field directly. -/
theorem connected_flag_transitions :
    (∀ url s, mkProvider url = .ok s → s.connected = false) ∧
    (∀ s url, ((setWeb3Client s url).1).connected = s.connected) ∧
    (∀ s args, ((requestIssue s args).1).connected = s.connected) ∧
    (∀ s o, (resolveHead s o).1.connected = true → s.connected = false →
       isSuccess o = true ∧ headKind s = some .probe) ∧
    (∀ s o, (resolveHead s o).1.connected = false → s.connected = true →
       isConnRefused o = true) ∧
    (∀ s t rest body r chainId, s.pending = t :: rest → t.kind = .probe →
       unwrapResponse body = .ok r → r.propAccess "result" = .ok chainId →
       (resolveHead s (.ok body)).1.connected = true) := by
  refine ⟨?_, ?_, ?_, ?_, ?_, ?_⟩
  · intro url s h
    unfold mkProvider at h
    split at h
    · simp only [Except.ok.injEq] at h
      subst h
      rfl
    · simp at h
  · intro s url
    unfold setWeb3Client
    split <;> rfl
  · intro s args
    cases h : s.httpClient <;> simp [requestIssue, h]
  · intro s o h1 h2
    rcases hp : s.pending with _ | ⟨⟨kind, tbody⟩, rest⟩
    · rw [show (resolveHead s o).1 = s by simp [resolveHead, hp], h2] at h1
      simp at h1
    · cases o with
      | ok body =>
          cases kind with
          | probe => exact ⟨rfl, by simp [headKind, hp]⟩
          | user =>
              have heq : (resolveHead s (.ok body)).1.connected = s.connected := by
                simp only [resolveHead, hp]
                cases hu : unwrapResponse body <;> simp [hu] <;>
                  exact (spawnIfDisconnected_fields _).2.2.1
              rw [heq, h2] at h1
              simp at h1
      | error cm =>
          obtain ⟨code, msg⟩ := cm
          have heq : (resolveHead s (.error (code, msg))).1 =
              applyConnFailure { s with pending := rest } code := by
            cases kind <;> simp [resolveHead, hp]
          rw [heq] at h1
          unfold applyConnFailure at h1
          split at h1
          · simp at h1
          · rw [show ({ s with pending := rest } : ProviderState).connected = s.connected
                from rfl, h2] at h1
            simp at h1
  · intro s o h1 h2
    rcases hp : s.pending with _ | ⟨⟨kind, tbody⟩, rest⟩
    · rw [show (resolveHead s o).1 = s by simp [resolveHead, hp], h2] at h1
      simp at h1
    · cases o with
      | ok body =>
          cases kind with
          | probe =>
              have hc : (resolveHead s (.ok body)).1.connected = true := by
                simp only [resolveHead, hp]
                exact resolveProbeSuccess_connected _ body h2
              rw [hc] at h1
              simp at h1
          | user =>
              have heq : (resolveHead s (.ok body)).1.connected = s.connected := by
                simp only [resolveHead, hp]
                cases hu : unwrapResponse body <;> simp [hu] <;>
                  exact (spawnIfDisconnected_fields _).2.2.1
              rw [heq, h2] at h1
              simp at h1
      | error cm =>
          obtain ⟨code, msg⟩ := cm
          have heq : (resolveHead s (.error (code, msg))).1 =
              applyConnFailure { s with pending := rest } code := by
            cases kind <;> simp [resolveHead, hp]
          rw [heq] at h1
          unfold applyConnFailure at h1
          split at h1
          case isTrue hcond =>
              rw [hcond.1]
              rfl
          case isFalse hcond =>
              rw [show ({ s with pending := rest } : ProviderState).connected = s.connected
                from rfl, h2] at h1
              simp at h1
  · intro s t rest body r chainId hp hk hu hr
    obtain ⟨kind, tbody⟩ := t
    cases hk
    simp only [resolveHead, hp]
    unfold resolveProbeSuccess
    simp only [hu, hr]
    exact (finishProbe_fields _ _).2.2.2.1

/-- C1 witness: the transition clauses instantiated at concrete states:
a fresh construction, a client swap, an issued request, a successful probe
delivery while disconnected, and a refused failure while connected. -/
theorem connected_flag_transitions_witness :
    (ProviderState.mk (some "http://h") "http://h" .undefined false [probeTask] []).connected
      = false ∧
    ((setWeb3Client sampleConnected (.str "http://h2")).1).connected =
      sampleConnected.connected ∧
    ((requestIssue sampleConnected sampleArgs).1).connected = sampleConnected.connected ∧
    (isSuccess (.ok goodBody) = true ∧ headKind sampleDisconnected = some .probe) ∧
    isConnRefused (Except.error ((some "ECONNREFUSED" : Option String), "refused")) = true ∧
    (resolveHead sampleDisconnected (.ok goodBody)).1.connected = true :=
  ⟨connected_flag_transitions.1 (.str "http://h") _ rfl,
   connected_flag_transitions.2.1 sampleConnected (.str "http://h2"),
   connected_flag_transitions.2.2.1 sampleConnected sampleArgs,
   connected_flag_transitions.2.2.2.1 sampleDisconnected (.ok goodBody) rfl rfl,
   connected_flag_transitions.2.2.2.2.1 sampleConnected
     (.error (some "ECONNREFUSED", "refused")) rfl rfl,
   connected_flag_transitions.2.2.2.2.2 sampleDisconnected probeTask [] goodBody
     goodBody (.str "0x1") rfl rfl rfl rfl⟩

/-- C2: when a request in flight fails with the connection-refused
classification while the provider is connected, the connected flag clears
and exactly one Disconnect event with code 4900 is appended to the event
log; at any provider that is already disconnected, a further
connection-refused failure appends no event at all. -/
theorem disconnect_on_connection_refused :
    ∀ s t rest msg, s.pending = t :: rest → s.connected = true →
      ((resolveHead s (.error (some "ECONNREFUSED", msg))).1.connected = false ∧
       (resolveHead s (.error (some "ECONNREFUSED", msg))).1.events =
         s.events ++ [.disconnect 4900]) ∧
      (∀ s2 msg2, s2.connected = false →
         (resolveHead s2 (.error (some "ECONNREFUSED", msg2))).1.events = s2.events) := by
  intro s t rest msg hp hc
  constructor
  · obtain ⟨kind, tbody⟩ := t
    have hpos := applyConnFailure_of_pos (s := { s with pending := rest }) hc
    cases kind <;> simp only [resolveHead, hp] <;> rw [hpos] <;> exact ⟨rfl, rfl⟩
  · intro s2 msg2 hc2
    rcases hp2 : s2.pending with _ | ⟨⟨kind2, tbody2⟩, rest2⟩
    · simp [resolveHead, hp2]
    · have hneg := applyConnFailure_of_neg (s := { s2 with pending := rest2 })
        (some "ECONNREFUSED") (by simp [hc2])
      cases kind2 <;> simp only [resolveHead, hp2] <;> rw [hneg]

/-- C2 witness: one refused failure at a connected provider clears the
flag and logs exactly one Disconnect 4900; a second consecutive refused
failure at the resulting state logs nothing further. -/
theorem disconnect_on_connection_refused_witness :
    (resolveHead sampleConnected (.error (some "ECONNREFUSED", "boom"))).1.connected
      = false ∧
    (resolveHead sampleConnected (.error (some "ECONNREFUSED", "boom"))).1.events =
      sampleConnected.events ++ [.disconnect 4900] ∧
    (resolveHead (resolveHead sampleConnected (.error (some "ECONNREFUSED", "boom"))).1
        (.error (some "ECONNREFUSED", "boom"))).1.events =
      (resolveHead sampleConnected (.error (some "ECONNREFUSED", "boom"))).1.events :=
  ⟨(disconnect_on_connection_refused sampleConnected sampleUserTask [sampleUserTask]
      "boom" rfl rfl).1.1,
   (disconnect_on_connection_refused sampleConnected sampleUserTask [sampleUserTask]
      "boom" rfl rfl).1.2,
   (disconnect_on_connection_refused sampleConnected sampleUserTask [sampleUserTask]
      "boom" rfl rfl).2 _ "boom" rfl⟩

/-- C6, evaluated at the failing input.  Constructing the provider at a
valid endpoint whose node answers every chain-id request with 0x1: after
the initial probe resolves, the flag is set and exactly one Connect has
been emitted, but the probe request itself has re-fired `_connectToClient`
(line 185 reads `_connected` before the probe continuation sets it), so a
second chain-id POST is in flight, and its resolution emits a second
Connect — the quiescent startup trace carries two Connect events where
the claim requires exactly one. -/
theorem startup_emits_two_connect_events :
    (mkProvider (.str "http://localhost:8545")).map
        (fun s0 => (resolveHead s0 (.ok goodBody)).1.events) =
      .ok [.connect (.str "0x1")] ∧
    (mkProvider (.str "http://localhost:8545")).map
        (fun s0 => (resolveHead s0 (.ok goodBody)).1.connected) = .ok true ∧
    (mkProvider (.str "http://localhost:8545")).map
        (fun s0 => (resolveHead s0 (.ok goodBody)).1.pending) = .ok [probeTask] ∧
    (mkProvider (.str "http://localhost:8545")).map
        (fun s0 =>
          (resolveHead (resolveHead s0 (.ok goodBody)).1 (.ok goodBody)).1.events) =
      .ok [.connect (.str "0x1"), .connect (.str "0x1")] ∧
    (mkProvider (.str "http://localhost:8545")).map
        (fun s0 =>
          (resolveHead (resolveHead s0 (.ok goodBody)).1 (.ok goodBody)).1.pending) =
      .ok [] :=
  ⟨rfl, rfl, rfl, rfl, rfl⟩

/-- C7: a successful chain-id probe appends a Connect event and appends a
ChainChanged event carrying the newly observed chain id exactly when a
previously stored chain identity exists (is not `undefined`) and strictly
differs from the new one; the new id is always stored afterwards.  The
trailing clauses read the strict-equality test back as equality:
a stored id fails the `undefined` test exactly when it exists, and two
string chain ids are strictly equal exactly when they are equal. -/
theorem chain_changed_iff_stored_differs :
    (∀ s t rest body r chainId,
       s.pending = t :: rest → t.kind = .probe →
       unwrapResponse body = .ok r → r.propAccess "result" = .ok chainId →
       (resolveHead s (.ok body)).1.clientChainId = chainId ∧
       (resolveHead s (.ok body)).1.events =
         s.events ++ [.connect chainId] ++
           (if jsStrictEq s.clientChainId .undefined = false ∧
               jsStrictEq chainId s.clientChainId = false
            then [.chainChanged chainId] else [])) ∧
    (∀ v, jsStrictEq v .undefined = false ↔ v ≠ .undefined) ∧
    (∀ a b, jsStrictEq (.str a) (.str b) = true ↔ a = b) := by
  refine ⟨?_, ?_, ?_⟩
  · intro s t rest body r chainId hp hk hu hr
    obtain ⟨kind, tbody⟩ := t
    cases hk
    simp only [resolveHead, hp]
    unfold resolveProbeSuccess
    simp only [hu, hr]
    constructor
    · exact (finishProbe_fields _ _).2.2.2.2
    · rw [finishProbe_events, (spawnIfDisconnected_fields _).2.2.2.2,
        (spawnIfDisconnected_fields _).2.2.2.1]
  · intro v
    cases v <;> simp [jsStrictEq]
  · intro a b
    simp [jsStrictEq]

/-- C7 witness: a probe observing 0x2 while 0x1 is stored emits Connect
then ChainChanged with 0x2 and stores 0x2; and the equality readings hold
at concrete values. -/
theorem chain_changed_iff_stored_differs_witness :
    (resolveHead sampleDisconnected (.ok (.obj [("result", .str "0x2")]))).1.clientChainId
      = .str "0x2" ∧
    (resolveHead sampleDisconnected (.ok (.obj [("result", .str "0x2")]))).1.events =
      sampleDisconnected.events ++ [.connect (.str "0x2"), .chainChanged (.str "0x2")] ∧
    (jsStrictEq (.str "0x1") .undefined = false ↔ JsValue.str "0x1" ≠ .undefined) :=
  ⟨(chain_changed_iff_stored_differs.1 sampleDisconnected probeTask []
      (.obj [("result", .str "0x2")]) (.obj [("result", .str "0x2")]) (.str "0x2")
      rfl rfl rfl rfl).1,
   by
     have h := (chain_changed_iff_stored_differs.1 sampleDisconnected probeTask []
       (.obj [("result", .str "0x2")]) (.obj [("result", .str "0x2")]) (.str "0x2")
       rfl rfl rfl rfl).2
     simpa using h,
   chain_changed_iff_stored_differs.2.1 (.str "0x1")⟩

/-- C8: when no HTTP client handle is bound, `request` fails with the
no-client error and issues no POST; when one is bound, a `request`
invocation puts exactly one POST in flight and throws nothing
synchronously; and a failing request resolves to an error carrying
exactly the underlying failure message, with no retry POST issued. -/
theorem request_failure_behavior :
    (∀ s args, s.httpClient = none →
       requestIssue s args = (s, some "No HTTP client initiliazed")) ∧
    (∀ s args c, s.httpClient = some c →
       (requestIssue s args).1.pending =
         s.pending ++ [{ kind := .user, body := buildRequestBody args }] ∧
       (requestIssue s args).2 = none) ∧
    (∀ s t rest code msg, s.pending = t :: rest → t.kind = .user →
       (resolveHead s (.error (code, msg))).2 = some (.error msg) ∧
       (resolveHead s (.error (code, msg))).1.pending = rest) := by
  refine ⟨?_, ?_, ?_⟩
  · intro s args h
    simp [requestIssue, h]
  · intro s args c h
    simp [requestIssue, h]
  · intro s t rest code msg hp hk
    obtain ⟨kind, tbody⟩ := t
    cases hk
    refine ⟨?_, ?_⟩
    · simp [resolveHead, hp]
    · simp only [resolveHead, hp]
      exact (applyConnFailure_fields _ _).2.2.2

/-- C8 witness: the no-client error at an unbound provider, the single
POST issued at a bound one, and the preserved message of a reset-style
failure. -/
theorem request_failure_behavior_witness :
    requestIssue sampleNoClient sampleArgs =
      (sampleNoClient, some "No HTTP client initiliazed") ∧
    (requestIssue sampleConnected sampleArgs).1.pending =
      sampleConnected.pending ++ [{ kind := .user, body := buildRequestBody sampleArgs }] ∧
    (resolveHead sampleConnected (.error (some "ECONNRESET", "socket hang up"))).2 =
      some (.error "socket hang up") :=
  ⟨request_failure_behavior.1 sampleNoClient sampleArgs rfl,
   (request_failure_behavior.2.1 sampleConnected sampleArgs "http://localhost:8545" rfl).1,
   (request_failure_behavior.2.2 sampleConnected sampleUserTask [sampleUserTask]
      (some "ECONNRESET") "socket hang up" rfl rfl).1⟩

end Web3ProvidersHttp
